import Mathlib

/-!
Shallow embedding of the Apache Jira scraper (src/main.py) and proofs of the
spec claims about it.  Python dicts read from JSON are modelled as association
lists, `None` as `Option.none`, filesystem files as `Option` contents
(`none` = the file does not exist), and Python truthiness of strings/lists is
modelled explicitly where the source relies on it.
-/

namespace JiraScraper

/-- The configured partition (project) list, src/main.py:13. -/
def PROJECTS : List String := ["SPARK", "HADOOP", "KAFKA"]

/-- File name constants, src/main.py:15-17. -/
def OUTPUT_FILE : String := "output.jsonl"

def CHECKPOINT_FILE : String := "checkpoint.json"

def STATUS_FILE : String := "status.json"

/-- The global `scraping_status` dict, src/main.py:20-25. -/
structure RunStatus where
  is_running : Bool
  start_time : Option String
  current_project : Option String
  projects_completed : List String
deriving DecidableEq, Repr

/-- The initial value of `scraping_status`, src/main.py:20-25. -/
def initial_scraping_status : RunStatus :=
  { is_running := false, start_time := none, current_project := none,
    projects_completed := [] }

/-- A checkpoint file content: the JSON dict mapping project name to offset. -/
abbrev Checkpoint := List (String × Nat)

/-- `load_checkpoint`, src/main.py:30-37.  `outputExists` is
`os.path.exists(OUTPUT_FILE)`; `checkpointFile` is the checkpoint file content
when that file exists (`none` when it does not). -/
def load_checkpoint (outputExists : Bool) (checkpointFile : Option Checkpoint) :
    Checkpoint :=
  if !outputExists then PROJECTS.map (fun p => (p, 0))
  else
    match checkpointFile with
    | some c => c
    | none => PROJECTS.map (fun p => (p, 0))

/-- `checkpoint.get(project, 0)` — how every caller reads the loaded
checkpoint (src/main.py:101 and src/main.py:263). -/
def checkpointGet (c : Checkpoint) (p : String) : Nat :=
  (c.lookup p).getD 0

/-- `update_status`, src/main.py:45-64.  `now` stands for
`datetime.now().isoformat()`.  The Python guard
`if completed_project and completed_project not in ...` tests string
truthiness, so an empty-string id is ignored; the write of STATUS_FILE is the
persistence side effect and does not change the returned status. -/
def update_status (now : String) (is_running : Option Bool)
    (current_project : Option String) (completed_project : Option String)
    (st : RunStatus) : RunStatus :=
  let st1 :=
    match is_running with
    | some b =>
      if b then
        { st with is_running := true, start_time := some now,
                  projects_completed := [] }
      else
        { st with is_running := false, start_time := none,
                  current_project := none }
    | none => st
  let st2 :=
    match current_project with
    | some p => { st1 with current_project := some p }
    | none => st1
  match completed_project with
  | some p =>
    if p ≠ "" ∧ p ∉ st2.projects_completed then
      { st2 with projects_completed := st2.projects_completed ++ [p] }
    else st2
  | none => st2

/-- The outcome of one attempt of `session.get` in `fetch_with_retry`
(src/main.py:70-83): rate limited (429), server error (5xx), not found (404),
a successful JSON payload, or a raised transport/timeout exception. -/
inductive FetchOutcome (α : Type) where
  | status429 : FetchOutcome α
  | serverError : FetchOutcome α
  | notFound : FetchOutcome α
  | ok : α → FetchOutcome α
  | exn : FetchOutcome α
deriving DecidableEq, Repr

/-- The attempt loop of `fetch_with_retry`, src/main.py:68-85: `attempt` is
the current index, the second argument the remaining attempts.  429, 5xx and
exceptions sleep and consume the attempt; 404 returns `None` at once; success
returns the payload; an exhausted budget returns `None` (src/main.py:85). -/
def fetchAttempts (responses : Nat → FetchOutcome α) : Nat → Nat → Option α
  | _, 0 => none
  | attempt, rem + 1 =>
    match responses attempt with
    | FetchOutcome.ok p => some p
    | FetchOutcome.notFound => none
    | _ => fetchAttempts responses (attempt + 1) rem

/-- `fetch_with_retry`, src/main.py:67-85, with its default budget of 5.
`responses` gives the outcome of the attempt with each index. -/
def fetch_with_retry (responses : Nat → FetchOutcome α) (retries : Nat) :
    Option α :=
  fetchAttempts responses 0 retries

/-- An outcome that makes `fetch_with_retry` sleep and try again. -/
def retryable (o : FetchOutcome α) : Prop :=
  o = FetchOutcome.status429 ∨ o = FetchOutcome.serverError ∨
    o = FetchOutcome.exn

instance (o : FetchOutcome α) [DecidableEq α] : Decidable (retryable o) := by
  unfold retryable; infer_instance

/-- One element of the `"comments"` array in the comments payload; `body` is
`c.get("body")` (`none` when the key is missing). -/
structure Comment where
  body : Option String
deriving DecidableEq, Repr

/-- The JSON payload of the comments endpoint; `comments` is `none` when the
`"comments"` key is missing (src/main.py:94). -/
structure CommentsPayload where
  comments : Option (List Comment)
deriving DecidableEq, Repr

/-- Python `str.strip()` as used on comment bodies (src/main.py:96). -/
def pyStrip (s : String) : String := s.trim

/-- `fetch_comments`, src/main.py:90-96: delegates to `fetch_with_retry`
(budget 5); an absent payload or a payload without the `"comments"` key yields
`[]`; otherwise keeps the truthy (present, non-empty) bodies, stripped.
`responses` is the per-attempt outcome of the underlying GET. -/
def fetch_comments (responses : Nat → FetchOutcome CommentsPayload) :
    List String :=
  match fetch_with_retry responses 5 with
  | none => []
  | some d =>
    match d.comments with
    | none => []
    | some cs =>
      (cs.filter (fun c => c.body.getD "" ≠ "")).map
        (fun c => pyStrip (c.body.getD ""))

/-- The JSON payload of one page request in `scrape_project`
(src/main.py:109-129): `issues` is `none` when the `"issues"` key is missing,
`total` is `data.get("total", None)`.  The issue type is abstract: the loop
control depends only on the page lengths. -/
structure PageResp (α : Type) where
  issues : Option (List α)
  total : Option Nat
deriving DecidableEq, Repr

/-- An observable event of the ingestion loop: a page request at an offset
(the GET at src/main.py:108-109), the append of a fully written page of `n`
records to the sink (src/main.py:118-123), or a `save_checkpoint` of the new
offset for the partition (src/main.py:126-127). -/
inductive LoopEvent where
  | req : Nat → LoopEvent
  | wrote : Nat → LoopEvent
  | save : Nat → LoopEvent
deriving DecidableEq, Repr

/-- Result of running the ingestion loop: the events in order, the final
checkpoint offset for the partition, and whether the fuel ran out before the
loop broke (the Python `while True` has no fuel; `fuelOut = false` certifies
the trace is the complete real one). -/
structure LoopResult where
  events : List LoopEvent
  final : Nat
  fuelOut : Bool
deriving DecidableEq, Repr

/-- The break test `if total and start_at >= total` (src/main.py:134) on the
already-advanced offset `s`; Python truthiness makes `total = 0` or
`total = None` never break. -/
def stopAfter (total : Option Nat) (s : Nat) : Bool :=
  match total with
  | some t => t != 0 && decide (t ≤ s)
  | none => false

/-- The `while True` ingestion loop of `scrape_project`, src/main.py:107-135,
as a fuelled recursion.  `server startAt` is the response of the page request
at offset `startAt` (`none` = `fetch_with_retry` returned `None`).  A missing
payload or missing `"issues"` key breaks (src/main.py:110-112); an empty page
breaks (src/main.py:115-116); otherwise the page is written, the offset
advances by the page length and the checkpoint is saved immediately
(src/main.py:125-127), then the loop breaks if the reported total is
reached. -/
def scrape_project_loop (server : Nat → Option (PageResp α)) :
    Nat → Nat → LoopResult
  | 0, startAt => ⟨[], startAt, true⟩
  | fuel + 1, startAt =>
    match server startAt with
    | none => ⟨[LoopEvent.req startAt], startAt, false⟩
    | some resp =>
      match resp.issues with
      | none => ⟨[LoopEvent.req startAt], startAt, false⟩
      | some issues =>
        if issues.length = 0 then ⟨[LoopEvent.req startAt], startAt, false⟩
        else
          let s := startAt + issues.length
          let evs := [LoopEvent.req startAt, LoopEvent.wrote issues.length,
                      LoopEvent.save s]
          if stopAfter resp.total s then ⟨evs, s, false⟩
          else
            let r := scrape_project_loop server fuel s
            ⟨evs ++ r.events, r.final, r.fuelOut⟩

/-- The source of the C1 scenario: it reports `total = 25` with page size 10
and serves pages `l0`, `l1`, `l2` at offsets 0, 10, 20. -/
def scenarioServer (l0 l1 l2 : List α) (startAt : Nat) :
    Option (PageResp α) :=
  if startAt = 0 then some ⟨some l0, some 25⟩
  else if startAt = 10 then some ⟨some l1, some 25⟩
  else if startAt = 20 then some ⟨some l2, some 25⟩
  else none

/-- The `metadata` section of one sink record, restricted to the fields
`calculate_stats` reads (src/main.py:198-218); each is
`issue.get("metadata", {}).get(...)`, `none` when missing. -/
structure IssueMetadata where
  project : Option String
  status : Option String
  priority : Option String
  created : Option String
deriving DecidableEq, Repr

/-- One JSON-decodable sink line as `calculate_stats` reads it:
metadata plus `content.comments` (src/main.py:221). -/
structure IssueRec where
  metadata : IssueMetadata
  comments : List String
deriving DecidableEq, Repr

/-- The `date_range` sub-dict of the statistics (src/main.py:183-186). -/
structure DateRange where
  earliest : Option String
  latest : Option String
deriving DecidableEq, Repr

/-- The statistics object built by `calculate_stats` (src/main.py:178-189);
the `defaultdict(int)` counters are association lists in insertion order. -/
structure Stats where
  total_issues : Nat
  by_project : List (String × Nat)
  by_status : List (String × Nat)
  by_priority : List (String × Nat)
  date_range : DateRange
  total_comments : Nat
  issues_with_comments : Nat
deriving DecidableEq, Repr

/-- `defaultdict(int)` increment `d[k] += 1`: bump an existing key, else
append the key with count 1. -/
def incr : List (String × Nat) → String → List (String × Nat)
  | [], k => [(k, 1)]
  | (q, v) :: rest, k =>
    if q = k then (q, v + 1) :: rest else (q, v) :: incr rest k

/-- The initial `stats` dict of `calculate_stats` (src/main.py:178-189). -/
def initStats : Stats :=
  { total_issues := 0, by_project := [], by_status := [], by_priority := [],
    date_range := { earliest := none, latest := none }, total_comments := 0,
    issues_with_comments := 0 }

/-- The per-line body of the scan loop in `calculate_stats`
(src/main.py:192-227).  A line that fails to decode (`none`) is skipped
(`except json.JSONDecodeError: continue`); the `if project:` style guards test
Python string truthiness, and `if comments:` tests list non-emptiness. -/
def statsStep (s : Stats) (line : Option IssueRec) : Stats :=
  match line with
  | none => s
  | some issue =>
    let s := { s with total_issues := s.total_issues + 1 }
    let s :=
      match issue.metadata.project with
      | some p =>
        if p ≠ "" then { s with by_project := incr s.by_project p } else s
      | none => s
    let s :=
      match issue.metadata.status with
      | some st =>
        if st ≠ "" then { s with by_status := incr s.by_status st } else s
      | none => s
    let s :=
      match issue.metadata.priority with
      | some pr =>
        if pr ≠ "" then { s with by_priority := incr s.by_priority pr }
        else s
      | none => s
    let s :=
      match issue.metadata.created with
      | some c =>
        if c ≠ "" then
          let e :=
            match s.date_range.earliest with
            | none => some c
            | some e0 => if c < e0 then some c else some e0
          let l :=
            match s.date_range.latest with
            | none => some c
            | some l0 => if l0 < c then some c else some l0
          { s with date_range := { earliest := e, latest := l } }
        else s
      | none => s
    let s := { s with total_comments := s.total_comments + issue.comments.length }
    if issue.comments.length ≠ 0 then
      { s with issues_with_comments := s.issues_with_comments + 1 }
    else s

/-- `calculate_stats`, src/main.py:173-234.  `sink` is the sink file content:
`none` when `OUTPUT_FILE` does not exist (the function then returns `None`),
otherwise the list of lines, each either a decoded record or `none` for a
line `json.loads` rejects. -/
def calculate_stats (sink : Option (List (Option IssueRec))) : Option Stats :=
  match sink with
  | none => none
  | some lines => some (lines.foldl statsStep initStats)

/-- The `/stats` route `get_stats`, src/main.py:281-295: raises
`HTTPException(404)` when `calculate_stats` returns `None`, else returns the
statistics. -/
def get_stats (sink : Option (List (Option IssueRec))) : Except Nat Stats :=
  match calculate_stats sink with
  | none => Except.error 404
  | some s => Except.ok s

/-- The persisted artifacts: checkpoint file, status file and the append-only
sink, each `none` when the file does not exist. -/
structure FsState where
  checkpointFile : Option Checkpoint
  statusFile : Option RunStatus
  outputFile : Option (List (Option IssueRec))
deriving Repr

/-- The `/reset` route `reset_scraper`, src/main.py:298-329: removes each of
the three files that exists (collecting `files_deleted` in that order), and
overwrites the four fields of the in-memory status with their initial
values. -/
def reset_scraper (fs : FsState) (st : RunStatus) :
    FsState × RunStatus × List String :=
  let deleted :=
    (if fs.checkpointFile.isSome then [CHECKPOINT_FILE] else []) ++
    (if fs.statusFile.isSome then [STATUS_FILE] else []) ++
    (if fs.outputFile.isSome then [OUTPUT_FILE] else [])
  let st :=
    { st with is_running := false, start_time := none,
              current_project := none, projects_completed := [] }
  (⟨none, none, none⟩, st, deleted)

/-- The `for project in PROJECTS` body of `run_scraper` (src/main.py:354-355),
with the effect of one `scrape_project` call abstracted as `step`: it returns
the status it leaves behind and `some e` when it raises.  The fold stops at
the first raise, as Python does. -/
def runProjects (step : String → RunStatus → RunStatus × Option ε) :
    List String → RunStatus → RunStatus × Option ε
  | [], st => (st, none)
  | p :: ps, st =>
    match step p st with
    | (st1, some e) => (st1, some e)
    | (st1, none) => runProjects step ps st1

/-- `run_scraper`, src/main.py:352-358: runs the partitions sequentially and,
in the `finally` block, calls `update_status(is_running=False)` whether the
body finished or raised; a raise is re-thrown afterwards (the second
component). -/
def run_scraper (now : String)
    (step : String → RunStatus → RunStatus × Option ε) (st : RunStatus) :
    RunStatus × Option ε :=
  let r := runProjects step PROJECTS st
  (update_status now (some false) none none r.1, r.2)

/-- A concrete sink record used to instantiate the statistics theorems. -/
def c6Issue : IssueRec :=
  { metadata := { project := some "SPARK", status := some "Open",
                  priority := some "Major", created := some "2020-01-01" },
    comments := ["first comment", "second comment"] }

/-! Helper lemmas -/

lemma lookup_map_zero (l : List String) (p : String) :
    ((l.map (fun q => (q, 0))).lookup p).getD 0 = 0 := by
  induction l with
  | nil => rfl
  | cons q rest ih =>
    simp only [List.map_cons, List.lookup]
    cases h : p == q
    · simpa using ih
    · rfl

/-! Theorems for the claims -/

/-- Claim C2: when the append-only sink file does not exist, `load_checkpoint`
returns the all-zero mapping over the configured partitions, whatever
checkpoint file (with whatever offsets) may be present. -/
theorem load_checkpoint_sink_absent (checkpointFile : Option Checkpoint)
    (p : String) :
    load_checkpoint false checkpointFile = PROJECTS.map (fun q => (q, 0)) ∧
    checkpointGet (load_checkpoint false checkpointFile) p = 0 :=
  ⟨rfl, lookup_map_zero PROJECTS p⟩

/-- Claim C9: when the sink exists and a checkpoint file exists,
`load_checkpoint` returns the persisted mapping, and reading it the way every
caller does (`checkpoint.get(project, 0)`) yields the persisted offset for a
partition present in the mapping and zero for a partition missing from it. -/
theorem load_checkpoint_sink_present (c : Checkpoint) (p : String) :
    load_checkpoint true (some c) = c ∧
    (c.lookup p = none → checkpointGet (load_checkpoint true (some c)) p = 0) ∧
    (∀ n, c.lookup p = some n →
      checkpointGet (load_checkpoint true (some c)) p = n) := by
  refine ⟨rfl, ?_, ?_⟩
  · intro h
    simp [checkpointGet, load_checkpoint, h]
  · intro n h
    simp [checkpointGet, load_checkpoint, h]

theorem load_checkpoint_sink_present_witness :
    checkpointGet (load_checkpoint true (some [("SPARK", 7)])) "HADOOP" = 0 ∧
    checkpointGet (load_checkpoint true (some [("SPARK", 7)])) "SPARK" = 7 :=
  ⟨(load_checkpoint_sink_present [("SPARK", 7)] "HADOOP").2.1 rfl,
   (load_checkpoint_sink_present [("SPARK", 7)] "SPARK").2.2 7 rfl⟩

/-- Claim C10: `update_status` called with `is_running=False` (the other
arguments at their `None` defaults) changes exactly the `is_running`,
`start_time` and `current_project` fields and leaves `projects_completed`
(and hence the whole record apart from those three fields) unchanged. -/
theorem update_status_stop_frame (now : String) (st : RunStatus) :
    update_status now (some false) none none st =
      { st with is_running := false, start_time := none,
                current_project := none } ∧
    (update_status now (some false) none none st).projects_completed =
      st.projects_completed :=
  ⟨rfl, rfl⟩

/-- Claim C4: `run_scraper` clears `is_running` in its `finally` block, so
whatever the per-partition steps do — all succeed or any of them raises — the
status it leaves behind has `is_running = false` (and the cleared
`start_time` and `current_project` that come with it). -/
theorem run_scraper_clears_is_running {ε : Type} (now : String)
    (step : String → RunStatus → RunStatus × Option ε) (st : RunStatus) :
    (run_scraper now step st).1.is_running = false ∧
    (run_scraper now step st).1.start_time = none ∧
    (run_scraper now step st).1.current_project = none :=
  ⟨rfl, rfl, rfl⟩

/-- Claim C7: `reset_scraper` leaves none of the three persisted artifacts on
disk (a file is in `files_deleted` exactly when it existed), and restores the
in-memory status to the exact initial idle shape. -/
theorem reset_scraper_restores_idle (fs : FsState) (st : RunStatus) :
    (reset_scraper fs st).1.checkpointFile = none ∧
    (reset_scraper fs st).1.statusFile = none ∧
    (reset_scraper fs st).1.outputFile = none ∧
    (reset_scraper fs st).2.1 = initial_scraping_status ∧
    (CHECKPOINT_FILE ∈ (reset_scraper fs st).2.2 ↔
      fs.checkpointFile.isSome = true) ∧
    (STATUS_FILE ∈ (reset_scraper fs st).2.2 ↔ fs.statusFile.isSome = true) ∧
    (OUTPUT_FILE ∈ (reset_scraper fs st).2.2 ↔ fs.outputFile.isSome = true) := by
  refine ⟨rfl, rfl, rfl, rfl, ?_, ?_, ?_⟩ <;>
    rcases fs with ⟨cp, stf, out⟩ <;>
    cases cp <;> cases stf <;> cases out <;>
    simp [reset_scraper, CHECKPOINT_FILE, STATUS_FILE, OUTPUT_FILE,
          initial_scraping_status]

/-- Claim C5: `fetch_comments` yields the empty list whenever the underlying
fetch returns the absence-signal `None` or a payload with no `"comments"`
field, and in particular whenever the first attempt already answers 404; no
error is propagated (the embedding is total, so none can be). -/
theorem fetch_comments_tolerates_absence :
    (∀ r : Nat → FetchOutcome CommentsPayload,
        fetch_with_retry r 5 = none → fetch_comments r = []) ∧
    (∀ (r : Nat → FetchOutcome CommentsPayload) (d : CommentsPayload),
        fetch_with_retry r 5 = some d → d.comments = none →
          fetch_comments r = []) ∧
    (∀ r : Nat → FetchOutcome CommentsPayload,
        r 0 = FetchOutcome.notFound → fetch_comments r = []) := by
  refine ⟨?_, ?_, ?_⟩
  · intro r h
    simp [fetch_comments, h]
  · intro r d h hc
    simp [fetch_comments, h, hc]
  · intro r h
    have habs : fetch_with_retry r 5 = none := by
      show fetchAttempts r 0 (4 + 1) = none
      rw [fetchAttempts, h]
    simp [fetch_comments, habs]

theorem fetch_comments_tolerates_absence_witness :
    fetch_comments (fun _ => FetchOutcome.notFound) = [] ∧
    fetch_comments (fun _ => FetchOutcome.ok ⟨none⟩) = [] :=
  ⟨fetch_comments_tolerates_absence.2.2 (fun _ => FetchOutcome.notFound) rfl,
   fetch_comments_tolerates_absence.2.1 (fun _ => FetchOutcome.ok ⟨none⟩)
     ⟨none⟩ rfl rfl⟩

lemma fetchAttempts_skip (responses : Nat → FetchOutcome α) :
    ∀ (k attempt rem : Nat),
      (∀ i, i < k → retryable (responses (attempt + i))) →
      fetchAttempts responses attempt (k + rem) =
        fetchAttempts responses (attempt + k) rem := by
  intro k
  induction k with
  | zero =>
    intro attempt rem _
    rw [Nat.zero_add, Nat.add_zero]
  | succ k ih =>
    intro attempt rem h
    have h0 : retryable (responses attempt) := by
      simpa using h 0 (Nat.succ_pos k)
    have step : fetchAttempts responses attempt (k + 1 + rem) =
        fetchAttempts responses (attempt + 1) (k + rem) := by
      rw [show k + 1 + rem = (k + rem) + 1 by omega, fetchAttempts]
      rcases h0 with h0 | h0 | h0 <;> rw [h0]
    rw [step, ih (attempt + 1) rem ?_]
    · rw [show attempt + 1 + k = attempt + (k + 1) by omega]
    · intro i hi
      rw [show attempt + 1 + i = attempt + (i + 1) by omega]
      exact h (i + 1) (by omega)

/-- Claim C3: within the default 5-attempt budget, a run of 5xx responses
followed by a success makes `fetch_with_retry` return the success payload,
while five retryable outcomes in a row (429, 5xx or a raised transport error)
make it return the absence-signal `None` instead of raising. -/
theorem fetch_with_retry_budget {α : Type} :
    (∀ (responses : Nat → FetchOutcome α) (k : Nat) (p : α), k < 5 →
        (∀ i, i < k → responses i = FetchOutcome.serverError) →
        responses k = FetchOutcome.ok p →
        fetch_with_retry responses 5 = some p) ∧
    (∀ responses : Nat → FetchOutcome α,
        (∀ i, i < 5 → retryable (responses i)) →
        fetch_with_retry responses 5 = none) := by
  constructor
  · intro responses k p hk h5 hok
    have hskip : fetchAttempts responses 0 (k + (5 - k)) =
        fetchAttempts responses (0 + k) (5 - k) := by
      refine fetchAttempts_skip responses k 0 (5 - k) ?_
      intro i hi
      rw [Nat.zero_add, h5 i hi]
      exact Or.inr (Or.inl rfl)
    have e5 : k + (5 - k) = 5 := by omega
    have erem : 5 - k = (5 - k - 1) + 1 := by omega
    show fetchAttempts responses 0 5 = some p
    rw [← e5, hskip, Nat.zero_add, erem, fetchAttempts, hok]
  · intro responses h
    have hskip : fetchAttempts responses 0 (5 + 0) =
        fetchAttempts responses (0 + 5) 0 := by
      refine fetchAttempts_skip responses 5 0 0 ?_
      intro i hi
      rw [Nat.zero_add]
      exact h i hi
    show fetchAttempts responses 0 5 = none
    rw [show (5 : Nat) = 5 + 0 from rfl, hskip]
    rfl

theorem fetch_with_retry_budget_witness :
    fetch_with_retry
        (fun i => if i < 2 then FetchOutcome.serverError
                  else FetchOutcome.ok 7) 5 = some 7 ∧
    fetch_with_retry (fun _ => (FetchOutcome.serverError : FetchOutcome Nat))
        5 = none :=
  ⟨fetch_with_retry_budget.1
     (fun i => if i < 2 then FetchOutcome.serverError else FetchOutcome.ok 7)
     2 7 (by decide) (by decide) (by decide),
   fetch_with_retry_budget.2 (fun _ => FetchOutcome.serverError) (by decide)⟩

/-- Claim C8, counterexample to the claim as stated: the guard
`if completed_project and ...` (src/main.py:59) tests Python string
truthiness, so marking the empty-string partition id completed twice leaves
zero entries for it, not exactly one. -/
theorem markCompleted_empty_id_counterexample :
    ¬ ((update_status "t2" none none (some "")
          (update_status "t1" none none (some "")
            initial_scraping_status)).projects_completed).count "" = 1 := by
  decide

/-- Claim C8, amended: for a non-empty partition id, marking it completed
twice leaves its entry count at `max (previous count) 1` — so starting from
any status in which the id occurs at most once (the only statuses the code
ever produces) exactly one entry remains, and a duplicate is never appended;
the empty-string id is ignored entirely by the truthiness guard. -/
theorem markCompleted_twice_count (now1 now2 p : String) (st : RunStatus)
    (hp : p ≠ "") :
    ((update_status now2 none none (some p)
        (update_status now1 none none (some p) st)).projects_completed).count p
      = max ((st.projects_completed).count p) 1 := by
  by_cases hmem : p ∈ st.projects_completed
  · have h1 : update_status now1 none none (some p) st = st := by
      simp [update_status, hmem]
    have h2 : update_status now2 none none (some p) st = st := by
      simp [update_status, hmem]
    rw [h1, h2]
    have hpos : 0 < (st.projects_completed).count p :=
      List.count_pos_iff.mpr hmem
    omega
  · have h1 : update_status now1 none none (some p) st =
        { st with projects_completed := st.projects_completed ++ [p] } := by
      simp [update_status, hp, hmem]
    have hmem2 : p ∈ st.projects_completed ++ [p] := by simp
    have h2 : update_status now2 none none (some p)
        { st with projects_completed := st.projects_completed ++ [p] } =
        { st with projects_completed := st.projects_completed ++ [p] } := by
      simp [update_status, hmem2]
    rw [h1, h2]
    have hz : (st.projects_completed).count p = 0 :=
      List.count_eq_zero_of_not_mem hmem
    simp [List.count_append, hz]

theorem markCompleted_twice_count_witness :
    ((update_status "t2" none none (some "SPARK")
        (update_status "t1" none none (some "SPARK")
          initial_scraping_status)).projects_completed).count "SPARK"
      = max ((initial_scraping_status.projects_completed).count "SPARK") 1 :=
  markCompleted_twice_count "t1" "t2" "SPARK" initial_scraping_status
    (by decide)

/-- Claim C6, counterexample to the claim as stated: on a sink file that
exists but is empty, `get_stats` returns the zero statistics object, not the
404 "not found" failure the claim asserts for an empty sink. -/
theorem get_stats_empty_sink_counterexample :
    get_stats (some []) = Except.ok initStats ∧
    get_stats (some []) ≠ Except.error 404 :=
  ⟨rfl, fun h => Except.noConfusion h⟩

/-- Claim C6, amended: `get_stats` fails with the 404 "not found" signal
exactly when the sink file is absent; whenever the sink exists — even empty —
it returns the aggregate statistics computed by the full scan of its lines
(so an existing empty sink yields the zero statistics object, not the
failure). -/
theorem get_stats_characterization (sink : Option (List (Option IssueRec))) :
    (get_stats sink = Except.error 404 ↔ sink = none) ∧
    (∀ lines, sink = some lines →
      get_stats sink = Except.ok (lines.foldl statsStep initStats)) := by
  constructor
  · cases sink with
    | none => simp [get_stats, calculate_stats]
    | some lines => simp [get_stats, calculate_stats]
  · rintro lines rfl
    rfl

theorem get_stats_characterization_witness :
    get_stats (some [some c6Issue]) =
      Except.ok
        { total_issues := 1, by_project := [("SPARK", 1)],
          by_status := [("Open", 1)], by_priority := [("Major", 1)],
          date_range := { earliest := some "2020-01-01",
                          latest := some "2020-01-01" },
          total_comments := 2, issues_with_comments := 1 } := by
  rw [(get_stats_characterization (some [some c6Issue])).2 [some c6Issue] rfl]
  rfl

/-- Claim C1: against a source that reports `total = 25` with page size 10
and pages of sizes 10, 10, 5, the ingestion loop starting from offset 0
issues exactly the three page requests at offsets 0, 10 and 20; after each
fully written page it saves the checkpoint advanced by the length of that page
(10, then 20, then 25); it ends with checkpoint offset 25; and it breaks
before any fourth request, with fuel to spare (`fuelOut = false` and `n`
arbitrary). -/
theorem scrape_project_loop_pagination {α : Type} (l0 l1 l2 : List α)
    (h0 : l0.length = 10) (h1 : l1.length = 10) (h2 : l2.length = 5)
    (n : Nat) :
    scrape_project_loop (scenarioServer l0 l1 l2) (n + 3) 0 =
      ⟨[LoopEvent.req 0, LoopEvent.wrote 10, LoopEvent.save 10,
        LoopEvent.req 10, LoopEvent.wrote 10, LoopEvent.save 20,
        LoopEvent.req 20, LoopEvent.wrote 5, LoopEvent.save 25],
       25, false⟩ := by
  have s2 : scrape_project_loop (scenarioServer l0 l1 l2) (n + 1) 20 =
      ⟨[LoopEvent.req 20, LoopEvent.wrote 5, LoopEvent.save 25], 25,
       false⟩ := by
    rw [scrape_project_loop]
    simp [scenarioServer, stopAfter, h2]
  have s1 : scrape_project_loop (scenarioServer l0 l1 l2) (n + 2) 10 =
      ⟨[LoopEvent.req 10, LoopEvent.wrote 10, LoopEvent.save 20,
        LoopEvent.req 20, LoopEvent.wrote 5, LoopEvent.save 25], 25,
       false⟩ := by
    rw [show n + 2 = (n + 1) + 1 from rfl, scrape_project_loop]
    simp [scenarioServer, stopAfter, h1, s2]
  rw [show n + 3 = (n + 2) + 1 from rfl, scrape_project_loop]
  simp [scenarioServer, stopAfter, h0, s1]

theorem scrape_project_loop_pagination_witness :
    scrape_project_loop
        (scenarioServer (List.replicate 10 0) (List.replicate 10 0)
          (List.replicate 5 0)) 3 0 =
      ⟨[LoopEvent.req 0, LoopEvent.wrote 10, LoopEvent.save 10,
        LoopEvent.req 10, LoopEvent.wrote 10, LoopEvent.save 20,
        LoopEvent.req 20, LoopEvent.wrote 5, LoopEvent.save 25],
       25, false⟩ :=
  scrape_project_loop_pagination (List.replicate 10 0) (List.replicate 10 0)
    (List.replicate 5 0) (by decide) (by decide) (by decide) 0

end JiraScraper
